import Mathlib

set_option maxRecDepth 100000

/-!
Shallow embedding of the retrieval core of `src/rag_model.py` (class `RAGModel`).

Modelling conventions:

* A knowledge document (`{"category": ..., "content": ...}`) is a `KnowledgeDoc`.
* The fitted TF-IDF vectorizer together with `cosine_similarity` is modelled
  abstractly: a `RAGModel` carries a function `vectorSims : String → List ℚ`
  returning, for a query, the row of cosine similarities against the document
  vectors (line 115 of the source).  All ranking claims are order-theoretic and
  are settled for every such similarity assignment, hence for every query.
* `np.argsort` (default quicksort) switches to insertion sort for arrays of
  fewer than 16 elements, so on this program's 7-document corpus it is a
  stable ascending sort.  A stable ascending sort by value is exactly the
  sort by the lexicographic key (value, original index), which is how
  `argsort` is defined below (as an insertion sort, like numpy's).
* The Python slice `[-top_k:]` yields the whole list when `top_k = 0`
  (since `a[-0:] = a[0:] = a`); `lastSlice` reproduces this exactly.
* `str.lower` is modelled on ASCII letters (`lowerStr`), which covers every
  category string in the knowledge base.
* pandas `df.groupby("Category")` sorts the group keys ascending
  (lexicographically by code point); `categoryKeys` reproduces this.
* Python's `:.2f` float formatting is modelled by `fmt2`: multiply by 100,
  round half to even, and print with exactly two decimal digits.
-/

structure KnowledgeDoc where
  category : String
  content : String
  deriving DecidableEq

structure ExpenseRecord where
  category : String
  amount : ℚ
  deriving DecidableEq

/-- State of a `RAGModel` instance: the similarity function stands for the
fitted `vectorizer` plus `document_vectors` plus `cosine_similarity` pipeline;
`documents`, `knowledge_base` and `expense_history` mirror the Python fields
of the same names. -/
structure RAGModel where
  vectorSims : String → List ℚ
  documents : List String
  knowledge_base : List KnowledgeDoc
  expense_history : List ExpenseRecord

/-- The fixed knowledge base built in `_initialize_knowledge_base`
(lines 36-79 of `src/rag_model.py`), verbatim. -/
def initialize_knowledge_base : List KnowledgeDoc :=
  [ { category := "Food"
    , content := "To reduce food expenses, consider meal planning, cooking at home more often, buying in bulk, using grocery lists, and avoiding impulse purchases. Track food waste and plan meals around sales and seasonal produce." }
  , { category := "Transport"
    , content := "Save on transport by carpooling, using public transportation, combining trips, maintaining your vehicle properly, and considering fuel-efficient routes. Walk or bike for short distances when possible." }
  , { category := "Bills"
    , content := "Optimize bills by reviewing subscriptions, negotiating rates, switching providers, using energy-efficient appliances, and setting up automatic payments to avoid late fees. Consider bundling services for discounts." }
  , { category := "Shopping"
    , content := "Reduce shopping expenses by creating a budget, waiting 24 hours before non-essential purchases, using coupons and cashback apps, buying quality items that last longer, and distinguishing between wants and needs." }
  , { category := "General"
    , content := "Build an emergency fund with 3-6 months of expenses, follow the 50/30/20 rule (50% needs, 30% wants, 20% savings), track all expenses, and review spending monthly. Set specific financial goals and automate savings." }
  , { category := "Savings"
    , content := "Maximize savings by automating transfers to savings accounts, taking advantage of employer matching for retirement accounts, reducing high-interest debt first, and using high-yield savings accounts. Start small if needed but be consistent." }
  , { category := "Budget"
    , content := "Create an effective budget by tracking income and expenses, categorizing spending, identifying areas to cut back, and reviewing regularly. Use budgeting apps or spreadsheets to monitor progress and adjust as needed." } ]

/-- `__init__` plus `_initialize_knowledge_base` (lines 21-86): the documents
are the contents of the knowledge base, the vectorizer is fitted on them
(`f` is the deterministic fit-and-similarity procedure), and the expense
history starts empty. -/
def mkRAGModel (f : List String → String → List ℚ) : RAGModel :=
  { vectorSims := f (initialize_knowledge_base.map (fun d => d.content))
  , documents := initialize_knowledge_base.map (fun d => d.content)
  , knowledge_base := initialize_knowledge_base
  , expense_history := [] }

/-- `add_expense_to_history` (lines 88-95): `self.expense_history.append(expense_data)`. -/
def add_expense_to_history (m : RAGModel) (e : ExpenseRecord) : RAGModel :=
  { m with expense_history := m.expense_history ++ [e] }

/-- Folding `add_expense_to_history` over a sequence of records. -/
def addAll (m : RAGModel) (es : List ExpenseRecord) : RAGModel :=
  es.foldl add_expense_to_history m

/-- Strict comparison of positions by the key (similarity value, index):
this is the order realised by numpy's stable ascending `argsort`. -/
def simKeyLt (sims : List ℚ) (i j : Nat) : Bool :=
  decide (sims.getD i 0 < sims.getD j 0 ∨ (sims.getD i 0 = sims.getD j 0 ∧ i < j))

/-- Insert an index into a list sorted ascending by `simKeyLt`. -/
def insertAsc (sims : List ℚ) (i : Nat) : List Nat → List Nat
  | [] => [i]
  | j :: js => if simKeyLt sims i j then i :: j :: js else j :: insertAsc sims i js

/-- Model of `np.argsort(similarities)` (line 118): indices `0..n-1` sorted
ascending by similarity, ties in ascending index order (stable; numpy uses
insertion sort on arrays below 16 elements, and the corpus has 7). -/
def argsort (sims : List ℚ) : List Nat :=
  (List.range sims.length).foldr (insertAsc sims) []

/-- Model of the Python slice `a[-k:]` on a list: the last `k` elements,
except that `k = 0` yields the whole list (since `a[-0:] = a[0:] = a`). -/
def lastSlice {α : Type} (l : List α) (k : Nat) : List α :=
  if k = 0 then l else l.drop (l.length - k)

/-- Lines 118-121 at the level of indices:
`top_indices = np.argsort(similarities)[-top_k:][::-1]` followed by the
comprehension filter `if similarities[i] > 0`. -/
def retrievedIndices (sims : List ℚ) (top_k : Nat) : List Nat :=
  ((lastSlice (argsort sims) top_k).reverse).filter (fun i => decide (0 < sims.getD i 0))

/-- `retrieve_relevant_knowledge` (lines 97-123): guard for an empty document
list, then map the filtered top indices through `self.knowledge_base`. -/
def retrieve_relevant_knowledge (m : RAGModel) (query : String) (top_k : Nat) : List KnowledgeDoc :=
  if m.documents = [] then []
  else (retrievedIndices (m.vectorSims query) top_k).map
    (fun i => m.knowledge_base.getD i { category := "", content := "" })

/-- The fixed instruction line appended at line 174 of the source. -/
def promptInstruction : String :=
  "Please provide a detailed, context-aware response based on the expense data and financial advice above."

/-- The numbered advice lines produced by the loop over
`enumerate(relevant_docs, 1)` (lines 170-171). -/
def adviceLines : Nat → List KnowledgeDoc → String
  | _, [] => ""
  | i, d :: ds =>
    toString i ++ ". [" ++ d.category ++ "] " ++ d.content ++ "\n" ++ adviceLines (i + 1) ds

/-- `generate_rag_enhanced_prompt` (lines 151-176): retrieval with `top_k=2`
on the unmodified query, then the prompt assembled exactly as in the source
(the source binds the retrieval result once as `relevant_docs`; retrieval is
pure, so writing the call twice is the same value). -/
def generate_rag_enhanced_prompt (m : RAGModel) (query expense_context : String) :
    String × List KnowledgeDoc :=
  ( "Expense Context: " ++ expense_context ++ "\n\n"
    ++ (if retrieve_relevant_knowledge m query 2 = [] then ""
        else "Relevant Financial Advice:\n"
          ++ adviceLines 1 (retrieve_relevant_knowledge m query 2))
    ++ "\nUser Question: " ++ query ++ "\n" ++ promptInstruction
  , retrieve_relevant_knowledge m query 2 )

/-- Lexicographic comparison of char lists by code point, the order Python
and pandas use on strings. -/
def charListLt : List Char → List Char → Bool
  | [], [] => false
  | [], _ :: _ => true
  | _ :: _, [] => false
  | a :: as, b :: bs =>
    if a.toNat < b.toNat then true
    else if b.toNat < a.toNat then false
    else charListLt as bs

/-- String order by code points, matching pandas' sorting of group keys. -/
def strLtB (a b : String) : Bool := charListLt a.data b.data

/-- Insert a category key into a sorted duplicate-free key list. -/
def insertKey (c : String) : List String → List String
  | [] => [c]
  | k :: ks =>
    if c = k then k :: ks
    else if strLtB c k then c :: k :: ks
    else k :: insertKey c ks

/-- The group keys of `df.groupby("Category")` (line 140): the distinct
category labels in ascending (code-point) order, as pandas sorts them. -/
def categoryKeys (recs : List ExpenseRecord) : List String :=
  recs.foldl (fun ks r => insertKey r.category ks) []

/-- Per-category subtotal: `df.groupby("Category")["Amount"].sum()` for one key. -/
def categoryTotal (recs : List ExpenseRecord) (c : String) : ℚ :=
  ((recs.filter (fun r => r.category == c)).map (fun r => r.amount)).sum

/-- Round to the nearest integer, halves to even, given the floor `f` of `q`. -/
def roundHalfEvenAux (q : ℚ) (f : ℤ) : ℤ :=
  if q - f < 1/2 then f
  else if (1:ℚ)/2 < q - f then f + 1
  else if f % 2 = 0 then f else f + 1

/-- Round half to even, the rounding Python's float formatting performs. -/
def roundHalfEven (q : ℚ) : ℤ := roundHalfEvenAux q ⌊q⌋

/-- Two decimal digits with a leading zero, for the hundredths part. -/
def padHundredths (n : Nat) : String :=
  if n < 10 then "0" ++ toString n else toString n

/-- Print `n` hundredths as a decimal numeral with two fractional digits. -/
def fmt2Int (n : ℤ) : String :=
  (if n < 0 then "-" else "")
    ++ toString (n.natAbs / 100) ++ "." ++ padHundredths (n.natAbs % 100)

/-- Model of Python's `f"{x:.2f}"`: round `100 * x` half to even and print
with exactly two decimal places. -/
def fmt2 (q : ℚ) : String := fmt2Int (roundHalfEven (q * 100))

/-- `build_context_from_expenses` (lines 125-149): the empty-table sentinel,
else total, mean and sorted per-category subtotals rendered with `:.2f`. -/
def build_context_from_expenses (recs : List ExpenseRecord) : String :=
  if recs = [] then "No expense data available."
  else
    "Total spending: " ++ fmt2 ((recs.map (fun r => r.amount)).sum) ++ " PKR. "
    ++ "Average expense: "
      ++ fmt2 ((recs.map (fun r => r.amount)).sum / (recs.length : ℚ)) ++ " PKR. "
    ++ "Spending by category: "
    ++ String.intercalate ", "
        ((categoryKeys recs).map (fun c => c ++ ": " ++ fmt2 (categoryTotal recs c) ++ " PKR"))

/-- ASCII lower-casing of one character, as `str.lower` acts on the ASCII
category labels of this program. -/
def lowerChar (c : Char) : Char :=
  if 65 ≤ c.toNat ∧ c.toNat ≤ 90 then Char.ofNat (c.toNat + 32) else c

/-- ASCII model of Python's `str.lower`. -/
def lowerStr (s : String) : String := String.mk (s.data.map lowerChar)

/-- `get_category_specific_advice` (lines 178-197): first case-insensitive
exact match, else the first document tagged "General", else the sentinel. -/
def get_category_specific_advice (m : RAGModel) (category : String) : String :=
  match m.knowledge_base.find? (fun d => lowerStr d.category == lowerStr category) with
  | some d => d.content
  | none =>
    match m.knowledge_base.find? (fun d => d.category == "General") with
    | some d => d.content
    | none => "No specific advice available for this category."

/-- A similarity row with a tied positive pair in front, used as a concrete
similarity assignment over the real 7-document corpus. -/
def tieSims : List ℚ := [1, 1, 0, 0, 0, 0, 0]

/-- A model over the real knowledge base whose similarities are `tieSims`
for every query. -/
def tieModel : RAGModel := mkRAGModel (fun _ _ => tieSims)

/-- A model over the real knowledge base where every similarity is 1. -/
def onesModel : RAGModel := mkRAGModel (fun _ _ => [1, 1, 1, 1, 1, 1, 1])

/-- A model over the real knowledge base where every similarity is 0, as for
a query sharing no vocabulary with any document. -/
def zerosModel : RAGModel := mkRAGModel (fun _ _ => [0, 0, 0, 0, 0, 0, 0])

/-- A model whose document list is empty (the `not self.documents` guard). -/
def emptyModel : RAGModel :=
  { vectorSims := fun _ => [], documents := [], knowledge_base := [], expense_history := [] }

/-- The record table of the spec's context-formatting example. -/
def exampleRecords : List ExpenseRecord :=
  [ { category := "Food", amount := 100 }
  , { category := "Food", amount := 50 }
  , { category := "Transport", amount := 25 } ]

example : argsort tieSims = [2, 3, 4, 5, 6, 0, 1] := by decide
example : retrievedIndices tieSims 2 = [1, 0] := by decide
example : lastSlice [1, 2, 3] 0 = [1, 2, 3] := by decide
example : categoryKeys exampleRecords = ["Food", "Transport"] := by decide
example : lowerStr "Food" = "food" := by decide

/-- The strict total order on positions realised by the stable ascending
argsort: by similarity value, ties by index. -/
def StrictRank (sims : List ℚ) (i j : Nat) : Prop :=
  sims.getD i 0 < sims.getD j 0 ∨ (sims.getD i 0 = sims.getD j 0 ∧ i < j)

theorem simKeyLt_iff (sims : List ℚ) (i j : Nat) :
    simKeyLt sims i j = true ↔ StrictRank sims i j := by
  simp [simKeyLt, StrictRank]

theorem StrictRank.trans' {sims : List ℚ} {i j k : Nat}
    (h₁ : StrictRank sims i j) (h₂ : StrictRank sims j k) : StrictRank sims i k := by
  rcases h₁ with h₁ | ⟨e₁, l₁⟩ <;> rcases h₂ with h₂ | ⟨e₂, l₂⟩
  · exact Or.inl (h₁.trans h₂)
  · exact Or.inl (e₂ ▸ h₁)
  · exact Or.inl (e₁ ▸ h₂)
  · exact Or.inr ⟨e₁.trans e₂, l₁.trans l₂⟩

theorem StrictRank.total' {sims : List ℚ} {i j : Nat} (hne : i ≠ j)
    (h : ¬ StrictRank sims i j) : StrictRank sims j i := by
  rcases lt_trichotomy (sims.getD i 0) (sims.getD j 0) with hv | hv | hv
  · exact absurd (Or.inl hv) h
  · rcases Nat.lt_or_ge i j with hij | hij
    · exact absurd (Or.inr ⟨hv, hij⟩) h
    · exact Or.inr ⟨hv.symm, lt_of_le_of_ne hij (Ne.symm hne)⟩
  · exact Or.inl hv

theorem mem_insertAsc (sims : List ℚ) (i x : Nat) (l : List Nat) :
    x ∈ insertAsc sims i l ↔ x = i ∨ x ∈ l := by
  induction l with
  | nil => simp [insertAsc]
  | cons j js ih =>
    by_cases h : simKeyLt sims i j
    · simp [insertAsc, h]
    · simp [insertAsc, h, ih]
      tauto

theorem insertAsc_perm (sims : List ℚ) (i : Nat) (l : List Nat) :
    (insertAsc sims i l).Perm (i :: l) := by
  induction l with
  | nil => simp [insertAsc]
  | cons j js ih =>
    by_cases h : simKeyLt sims i j
    · simp [insertAsc, h]
    · simp only [insertAsc, h, if_false]
      exact ((ih.cons j).trans (List.Perm.swap i j js))

theorem insertAsc_pairwise (sims : List ℚ) (i : Nat) (l : List Nat)
    (hs : l.Pairwise (StrictRank sims)) (hi : i ∉ l) :
    (insertAsc sims i l).Pairwise (StrictRank sims) := by
  induction l with
  | nil => simp [insertAsc]
  | cons j js ih =>
    rcases List.pairwise_cons.mp hs with ⟨hj, hjs⟩
    have hine : i ≠ j := by intro e; exact hi (e ▸ List.mem_cons_self j js)
    have hins : i ∉ js := fun h => hi (List.mem_cons_of_mem j h)
    by_cases h : simKeyLt sims i j
    · have hij : StrictRank sims i j := (simKeyLt_iff sims i j).mp h
      simp only [insertAsc, h, if_true]
      refine List.pairwise_cons.mpr ⟨?_, hs⟩
      intro x hx
      rcases List.mem_cons.mp hx with e | hx
      · exact e ▸ hij
      · exact hij.trans' (hj x hx)
    · have hji : StrictRank sims j i :=
        StrictRank.total' hine (fun hh => h ((simKeyLt_iff sims i j).mpr hh))
      simp only [insertAsc, h, if_false]
      refine List.pairwise_cons.mpr ⟨?_, ih hjs hins⟩
      intro x hx
      rcases (mem_insertAsc sims i x js).mp hx with e | hx
      · exact e ▸ hji
      · exact hj x hx

theorem foldr_insertAsc_perm (sims : List ℚ) (l : List Nat) :
    (l.foldr (insertAsc sims) []).Perm l := by
  induction l with
  | nil => simp
  | cons a l ih =>
    exact (insertAsc_perm sims a (l.foldr (insertAsc sims) [])).trans (ih.cons a)

theorem foldr_insertAsc_pairwise (sims : List ℚ) (l : List Nat) (hn : l.Nodup) :
    (l.foldr (insertAsc sims) []).Pairwise (StrictRank sims) := by
  induction l with
  | nil => simp
  | cons a l ih =>
    rcases List.pairwise_cons.mp hn with ⟨ha, hl⟩
    have hmem : a ∉ l.foldr (insertAsc sims) [] := by
      intro h
      exact (ha a ((foldr_insertAsc_perm sims l).mem_iff.mp h)) rfl
    exact insertAsc_pairwise sims a _ (ih hl) hmem

theorem argsort_perm (sims : List ℚ) : (argsort sims).Perm (List.range sims.length) :=
  foldr_insertAsc_perm sims (List.range sims.length)

theorem argsort_pairwise (sims : List ℚ) : (argsort sims).Pairwise (StrictRank sims) :=
  foldr_insertAsc_pairwise sims (List.range sims.length) (List.nodup_range sims.length)

theorem argsort_length (sims : List ℚ) : (argsort sims).length = sims.length := by
  have := (argsort_perm sims).length_eq
  simpa using this

theorem lastSlice_sublist {α : Type} (l : List α) (k : Nat) : (lastSlice l k).Sublist l := by
  unfold lastSlice
  by_cases h : k = 0
  · simp [h]
  · simp only [h, if_false]
    exact List.drop_sublist _ l

theorem retrievedIndices_pairwise (sims : List ℚ) (k : Nat) :
    (retrievedIndices sims k).Pairwise (fun i j => StrictRank sims j i) := by
  have h1 : (lastSlice (argsort sims) k).Pairwise (StrictRank sims) :=
    List.Pairwise.sublist (lastSlice_sublist (argsort sims) k) (argsort_pairwise sims)
  have h2 : ((lastSlice (argsort sims) k).reverse).Pairwise (fun i j => StrictRank sims j i) :=
    List.pairwise_reverse.mpr h1
  exact List.Pairwise.sublist (List.filter_sublist _) h2

theorem mem_retrievedIndices_pos (sims : List ℚ) (k i : Nat)
    (h : i ∈ retrievedIndices sims k) : 0 < sims.getD i 0 := by
  have := List.of_mem_filter h
  simpa using this

theorem lastSlice_length_le {α : Type} (l : List α) (k : Nat) (hk : 1 ≤ k) :
    (lastSlice l k).length ≤ k := by
  unfold lastSlice
  have h0 : ¬ (k = 0) := by omega
  simp only [h0, if_false, List.length_drop]
  omega

theorem lastSlice_suffix_succ {α : Type} (l : List α) (k : Nat) (hk : 1 ≤ k) :
    (lastSlice l k).IsSuffix (lastSlice l (k + 1)) := by
  unfold lastSlice
  have h0 : ¬ (k = 0) := by omega
  have h1 : ¬ (k + 1 = 0) := by omega
  simp only [h0, h1, if_false]
  by_cases hn : l.length ≤ k
  · have e1 : l.length - k = 0 := by omega
    have e2 : l.length - (k + 1) = 0 := by omega
    rw [e1, e2]
  · have e : l.length - k = (l.length - (k + 1)) + 1 := by omega
    rw [e, ← List.drop_drop 1 (l.length - (k + 1)) l]
    exact List.drop_suffix 1 _

theorem retrievedIndices_length_le (sims : List ℚ) (k : Nat) (hk : 1 ≤ k) :
    (retrievedIndices sims k).length ≤ k := by
  unfold retrievedIndices
  refine le_trans (List.length_filter_le _ _) ?_
  rw [List.length_reverse]
  exact lastSlice_length_le _ k hk

theorem retrievedIndices_prefix_succ (sims : List ℚ) (k : Nat) (hk : 1 ≤ k) :
    (retrievedIndices sims k).IsPrefix (retrievedIndices sims (k + 1)) := by
  unfold retrievedIndices
  have hsuf := lastSlice_suffix_succ (argsort sims) k hk
  have hpre : ((lastSlice (argsort sims) k).reverse).IsPrefix
      ((lastSlice (argsort sims) (k + 1)).reverse) :=
    List.reverse_prefix.mpr hsuf
  exact List.IsPrefix.filter _ hpre

theorem retrieve_congr (m₁ m₂ : RAGModel) (hd : m₁.documents = m₂.documents)
    (hv : m₁.vectorSims = m₂.vectorSims) (hk : m₁.knowledge_base = m₂.knowledge_base)
    (q : String) (k : Nat) :
    retrieve_relevant_knowledge m₁ q k = retrieve_relevant_knowledge m₂ q k := by
  unfold retrieve_relevant_knowledge
  rw [hd, hv, hk]

theorem addAll_fields (m : RAGModel) (es : List ExpenseRecord) :
    (addAll m es).documents = m.documents
    ∧ (addAll m es).vectorSims = m.vectorSims
    ∧ (addAll m es).knowledge_base = m.knowledge_base := by
  induction es generalizing m with
  | nil => exact ⟨rfl, rfl, rfl⟩
  | cons e es ih => exact ih (add_expense_to_history m e)

/-- C1: for every query and topK the result of `retrieve_relevant_knowledge`
is the knowledge base read off along `retrievedIndices`, and that index list
is strictly descending in similarity, with equal-similarity indices in
strictly DESCENDING original order (the amended tie-break: the source sorts
ascending stably and then reverses, so ties come out reversed). -/
theorem claim_C1 : ∀ (m : RAGModel) (q : String) (k : Nat),
    (m.documents ≠ [] →
      retrieve_relevant_knowledge m q k =
        (retrievedIndices (m.vectorSims q) k).map
          (fun i => m.knowledge_base.getD i { category := "", content := "" }))
    ∧ (retrievedIndices (m.vectorSims q) k).Pairwise (fun i j =>
        (m.vectorSims q).getD j 0 < (m.vectorSims q).getD i 0
        ∨ ((m.vectorSims q).getD i 0 = (m.vectorSims q).getD j 0 ∧ j < i)) := by
  intro m q k
  constructor
  · intro h
    unfold retrieve_relevant_knowledge
    rw [if_neg h]
  · refine (retrievedIndices_pairwise (m.vectorSims q) k).imp ?_
    intro i j h
    exact h.imp id (fun hh => ⟨hh.1.symm, hh.2⟩)

/-- C1 witness: the ordering theorem instantiated on the real knowledge base
with the concrete tied similarity row. -/
theorem claim_C1_wit :
    retrieve_relevant_knowledge tieModel "how to save" 2 =
      (retrievedIndices (tieModel.vectorSims "how to save") 2).map
        (fun i => tieModel.knowledge_base.getD i { category := "", content := "" }) :=
  (claim_C1 tieModel "how to save" 2).1 (by decide)

/-- C1 counterexample: documents 0 and 1 have identical similarity 1, yet
retrieval returns document 1 before document 0 — not the original
knowledge-base order the claim states. -/
theorem claim_C1_cex :
    (tieModel.vectorSims "query").getD 0 0 = (tieModel.vectorSims "query").getD 1 0
    ∧ retrieve_relevant_knowledge tieModel "query" 2 =
        [ initialize_knowledge_base.getD 1 { category := "", content := "" }
        , initialize_knowledge_base.getD 0 { category := "", content := "" } ]
    ∧ initialize_knowledge_base.getD 1 { category := "", content := "" } ≠
        initialize_knowledge_base.getD 0 { category := "", content := "" } := by
  refine ⟨by decide, by decide, by decide⟩

/-- C2: every document returned by `retrieve_relevant_knowledge` sits at a
retrieved index of strictly positive similarity — no document with
similarity ≤ 0 ever appears. -/
theorem claim_C2 : ∀ (m : RAGModel) (q : String) (k : Nat) (d : KnowledgeDoc),
    d ∈ retrieve_relevant_knowledge m q k →
    ∃ i, i ∈ retrievedIndices (m.vectorSims q) k
      ∧ d = m.knowledge_base.getD i { category := "", content := "" }
      ∧ 0 < (m.vectorSims q).getD i 0 := by
  intro m q k d hd
  unfold retrieve_relevant_knowledge at hd
  by_cases h : m.documents = []
  · rw [if_pos h] at hd
    exact absurd hd (List.not_mem_nil d)
  · rw [if_neg h] at hd
    rcases List.mem_map.mp hd with ⟨i, hi, he⟩
    exact ⟨i, hi, he.symm, mem_retrievedIndices_pos _ _ _ hi⟩

/-- C2 witness: the positivity theorem applied to a concrete retrieved
document of the tied model. -/
theorem claim_C2_wit :
    ∃ i, i ∈ retrievedIndices (tieModel.vectorSims "q") 2
      ∧ initialize_knowledge_base.getD 1 { category := "", content := "" } =
          tieModel.knowledge_base.getD i { category := "", content := "" }
      ∧ 0 < (tieModel.vectorSims "q").getD i 0 :=
  claim_C2 tieModel "q" 2
    (initialize_knowledge_base.getD 1 { category := "", content := "" }) (by decide)

/-- C3 counterexample: at `topK = 0` the Python slice `[-0:]` keeps the whole
array, so the result has length 7, not at most 0. -/
theorem claim_C3_cex : ¬ ((retrieve_relevant_knowledge onesModel "query" 0).length ≤ 0) := by
  decide

/-- C3 (amended to `topK ≥ 1`): the returned list has length at most topK.
At `topK = 0` the claim fails, since the Python slice `[-top_k:]` degenerates
to the whole array. -/
theorem claim_C3 : ∀ (m : RAGModel) (q : String) (k : Nat), 1 ≤ k →
    (retrieve_relevant_knowledge m q k).length ≤ k := by
  intro m q k hk
  unfold retrieve_relevant_knowledge
  by_cases h : m.documents = []
  · rw [if_pos h]
    exact Nat.zero_le k
  · rw [if_neg h, List.length_map]
    exact retrievedIndices_length_le _ k hk

/-- C3 witness: the length bound at `topK = 2` on the all-ones model. -/
theorem claim_C3_wit : (retrieve_relevant_knowledge onesModel "query" 2).length ≤ 2 :=
  claim_C3 onesModel "query" 2 (by decide)

/-- C4 counterexample: `retrieve(q, 0)` returns all seven documents while
`retrieve(q, 1)` returns one, so the former is not a prefix of the latter. -/
theorem claim_C4_cex :
    ¬ ((retrieve_relevant_knowledge onesModel "query" 0).IsPrefix
        (retrieve_relevant_knowledge onesModel "query" 1)) := by
  intro hp
  rcases hp with ⟨t, ht⟩
  have h0 : (retrieve_relevant_knowledge onesModel "query" 0).length = 7 := by decide
  have h1 : (retrieve_relevant_knowledge onesModel "query" 1).length = 1 := by decide
  have := congrArg List.length ht
  rw [List.length_append, h0, h1] at this
  omega

/-- C4 (amended to `k ≥ 1`): `retrieve(query, k)` is a prefix of
`retrieve(query, k+1)`.  At `k = 0` the claim fails because the slice
`[-0:]` keeps everything. -/
theorem claim_C4 : ∀ (m : RAGModel) (q : String) (k : Nat), 1 ≤ k →
    (retrieve_relevant_knowledge m q k).IsPrefix
      (retrieve_relevant_knowledge m q (k + 1)) := by
  intro m q k hk
  unfold retrieve_relevant_knowledge
  by_cases h : m.documents = []
  · rw [if_pos h, if_pos h]
  · rw [if_neg h, if_neg h]
    exact List.IsPrefix.map _ (retrievedIndices_prefix_succ _ k hk)

/-- C4 witness: the prefix property at `k = 1` on the all-ones model. -/
theorem claim_C4_wit :
    (retrieve_relevant_knowledge onesModel "query" 1).IsPrefix
      (retrieve_relevant_knowledge onesModel "query" 2) :=
  claim_C4 onesModel "query" 1 (by decide)

/-- C5: retrieval on an empty document list yields `[]`, and a query whose
similarity row is nowhere positive (as for zero vocabulary overlap or the
empty string, whose TF-IDF vector is zero and whose cosine row is all
zeros) also yields `[]`; the function is total, so it never raises. -/
theorem claim_C5 : ∀ (m : RAGModel) (q : String) (k : Nat),
    (m.documents = [] → retrieve_relevant_knowledge m q k = [])
    ∧ ((∀ s ∈ m.vectorSims q, s ≤ 0) → retrieve_relevant_knowledge m q k = []) := by
  intro m q k
  constructor
  · intro h
    unfold retrieve_relevant_knowledge
    rw [if_pos h]
  · intro h
    unfold retrieve_relevant_knowledge
    by_cases hd : m.documents = []
    · rw [if_pos hd]
    · rw [if_neg hd]
      have hnil : retrievedIndices (m.vectorSims q) k = [] := by
        unfold retrievedIndices
        refine List.filter_eq_nil_iff.mpr ?_
        intro i _
        have hle : (m.vectorSims q).getD i 0 ≤ 0 := by
          by_cases hl : i < (m.vectorSims q).length
          · rw [List.getD_eq_getElem _ _ hl]
            exact h _ (List.getElem_mem hl)
          · rw [List.getD_eq_default _ _ (le_of_not_lt hl)]
        simp only [decide_eq_true_eq]
        exact not_lt.mpr hle
      rw [hnil]
      rfl

/-- C5 witness: the empty knowledge base and the all-zero similarity row
(empty query) both produce the empty result. -/
theorem claim_C5_wit :
    retrieve_relevant_knowledge emptyModel "budget" 3 = []
    ∧ retrieve_relevant_knowledge zerosModel "" 5 = [] :=
  ⟨(claim_C5 emptyModel "budget" 3).1 rfl, (claim_C5 zerosModel "" 5).2 (by decide)⟩

/-- C6: the prompt assembler retrieves with topK fixed at 2 on the unmodified
query, returns the document list actually used as its second component, and
the prompt is exactly the expense-context line, a blank line, the advice
block (present only when retrieval is non-empty, each document rendered as
"{index}. [{category}] {content}"), then the user-question line and the
fixed instruction line. -/
theorem claim_C6 : ∀ (m : RAGModel) (q ctx : String),
    (generate_rag_enhanced_prompt m q ctx).2 = retrieve_relevant_knowledge m q 2
    ∧ (retrieve_relevant_knowledge m q 2 = [] →
        (generate_rag_enhanced_prompt m q ctx).1 =
          "Expense Context: " ++ ctx ++ "\n\n"
          ++ "\nUser Question: " ++ q ++ "\n" ++ promptInstruction)
    ∧ (retrieve_relevant_knowledge m q 2 ≠ [] →
        (generate_rag_enhanced_prompt m q ctx).1 =
          "Expense Context: " ++ ctx ++ "\n\n"
          ++ ("Relevant Financial Advice:\n"
              ++ adviceLines 1 (retrieve_relevant_knowledge m q 2))
          ++ "\nUser Question: " ++ q ++ "\n" ++ promptInstruction) := by
  intro m q ctx
  refine ⟨rfl, ?_, ?_⟩
  · intro h
    unfold generate_rag_enhanced_prompt
    rw [if_pos h]
    simp
  · intro h
    unfold generate_rag_enhanced_prompt
    rw [if_neg h]

/-- C6 witness: both prompt shapes at concrete models — empty retrieval on
the all-zero similarity model, non-empty retrieval on the tied model. -/
theorem claim_C6_wit :
    (generate_rag_enhanced_prompt zerosModel "q" "ctx").1 =
      "Expense Context: " ++ "ctx" ++ "\n\n"
      ++ "\nUser Question: " ++ "q" ++ "\n" ++ promptInstruction
    ∧ (generate_rag_enhanced_prompt tieModel "q" "ctx").1 =
      "Expense Context: " ++ "ctx" ++ "\n\n"
      ++ ("Relevant Financial Advice:\n"
          ++ adviceLines 1 (retrieve_relevant_knowledge tieModel "q" 2))
      ++ "\nUser Question: " ++ "q" ++ "\n" ++ promptInstruction :=
  ⟨(claim_C6 zerosModel "q" "ctx").2.1 (by decide),
   (claim_C6 tieModel "q" "ctx").2.2 (by decide)⟩

/-- C8: `get_category_specific_advice` returns the content of the first
document matching the category case-insensitively; failing that, the content
of the first document tagged "General"; failing that, the fixed sentinel.
Concretely on the real knowledge base, "food" and "Food" return the same
content and "Unknown" falls back to the "General" document (index 4).
The function is total, so it never raises. -/
theorem claim_C8 :
    (∀ (m : RAGModel) (category : String),
      (∀ d, m.knowledge_base.find? (fun x => lowerStr x.category == lowerStr category) = some d →
        get_category_specific_advice m category = d.content)
      ∧ (m.knowledge_base.find? (fun x => lowerStr x.category == lowerStr category) = none →
          (∀ g, m.knowledge_base.find? (fun x => x.category == "General") = some g →
            get_category_specific_advice m category = g.content)
          ∧ (m.knowledge_base.find? (fun x => x.category == "General") = none →
              get_category_specific_advice m category =
                "No specific advice available for this category.")))
    ∧ get_category_specific_advice tieModel "food" = get_category_specific_advice tieModel "Food"
    ∧ get_category_specific_advice tieModel "Unknown" =
        (initialize_knowledge_base.getD 4 { category := "", content := "" }).content := by
  refine ⟨?_, by decide, by decide⟩
  intro m category
  constructor
  · intro d hd
    unfold get_category_specific_advice
    rw [hd]
  · intro hn
    unfold get_category_specific_advice
    rw [hn]
    constructor
    · intro g hg
      rw [hg]
    · intro hng
      rw [hng]

/-- C8 witness: the first-match case applied at the "Transport" document. -/
theorem claim_C8_wit :
    get_category_specific_advice tieModel "Transport" =
      (initialize_knowledge_base.getD 1 { category := "", content := "" }).content :=
  (claim_C8.1 tieModel "Transport").1
    (initialize_knowledge_base.getD 1 { category := "", content := "" }) (by decide)

/-- C9: retrieval is deterministic across builds — two `RAGModel` instances
produced by the same initialization over the same document set (the fit
`f` is a pure function of the document list, and the code draws on no other
input) have identical similarity rows and identical retrieval results for
every query and topK. -/
theorem claim_C9 : ∀ (f : List String → String → List ℚ) (m₁ m₂ : RAGModel),
    m₁ = mkRAGModel f → m₂ = mkRAGModel f →
    ∀ (q : String) (k : Nat),
      m₁.vectorSims q = m₂.vectorSims q
      ∧ retrieve_relevant_knowledge m₁ q k = retrieve_relevant_knowledge m₂ q k := by
  intro f m₁ m₂ h₁ h₂ q k
  subst h₁
  subst h₂
  exact ⟨rfl, rfl⟩

/-- C9 witness: two builds with the same fit agree on a concrete query. -/
theorem claim_C9_wit :
    tieModel.vectorSims "save" = tieModel.vectorSims "save"
    ∧ retrieve_relevant_knowledge tieModel "save" 3 =
        retrieve_relevant_knowledge tieModel "save" 3 :=
  claim_C9 (fun _ _ => tieSims) tieModel tieModel rfl rfl "save" 3

/-- C10: `add_expense_to_history` appends exactly one record and leaves
`documents`, the fitted similarity function and `knowledge_base` unchanged;
consequently retrieval, category advice and prompt generation are identical
after any sequence of appends.  `build_context_from_expenses` reads only the
record table passed to it (it takes no model state at all), so it is
unaffected by construction. -/
theorem claim_C10 : ∀ (m : RAGModel) (e : ExpenseRecord) (es : List ExpenseRecord)
    (q cat ctx : String) (k : Nat),
    (add_expense_to_history m e).expense_history = m.expense_history ++ [e]
    ∧ (add_expense_to_history m e).documents = m.documents
    ∧ (add_expense_to_history m e).vectorSims = m.vectorSims
    ∧ (add_expense_to_history m e).knowledge_base = m.knowledge_base
    ∧ retrieve_relevant_knowledge (addAll m es) q k = retrieve_relevant_knowledge m q k
    ∧ get_category_specific_advice (addAll m es) cat = get_category_specific_advice m cat
    ∧ generate_rag_enhanced_prompt (addAll m es) q ctx = generate_rag_enhanced_prompt m q ctx := by
  intro m e es q cat ctx k
  rcases addAll_fields m es with ⟨hd, hv, hk⟩
  refine ⟨rfl, rfl, rfl, rfl, retrieve_congr _ _ hd hv hk q k, ?_, ?_⟩
  · unfold get_category_specific_advice
    rw [hk]
  · unfold generate_rag_enhanced_prompt
    rw [retrieve_congr _ _ hd hv hk q 2]

theorem roundHalfEven_eq_of_floor (q : ℚ) (z : ℤ) (hf : ⌊q⌋ = z) (hlt : q - z < 1/2) :
    roundHalfEven q = z := by
  unfold roundHalfEven roundHalfEvenAux
  rw [hf, if_pos hlt]

theorem fmt2_of_floor (q : ℚ) (z : ℤ) (hf : ⌊q * 100⌋ = z) (hlt : q * 100 - z < 1/2) :
    fmt2 q = fmt2Int z := by
  unfold fmt2
  rw [roundHalfEven_eq_of_floor _ z hf hlt]

theorem fmt2_175 : fmt2 (175 : ℚ) = "175.00" := by
  rw [fmt2_of_floor _ 17500 (by norm_num) (by push_cast; norm_num)]
  decide

theorem fmt2_avg : fmt2 ((175 : ℚ) / ((3:ℕ) : ℚ)) = "58.33" := by
  rw [fmt2_of_floor _ 5833 (by push_cast; norm_num [Int.floor_eq_iff])
    (by push_cast; norm_num)]
  decide

theorem fmt2_150 : fmt2 (150 : ℚ) = "150.00" := by
  rw [fmt2_of_floor _ 15000 (by norm_num) (by push_cast; norm_num)]
  decide

theorem fmt2_25 : fmt2 (25 : ℚ) = "25.00" := by
  rw [fmt2_of_floor _ 2500 (by norm_num) (by push_cast; norm_num)]
  decide

/-- C7: the context builder returns the fixed sentinel on an empty table;
otherwise exactly the rendered statistics string (total, mean, per-category
subtotals, each with two decimal places); and on the records
[(Food, 100), (Food, 50), (Transport, 25)] it produces total 175.00,
average 58.33, "Food: 150.00 PKR" and "Transport: 25.00 PKR". -/
theorem claim_C7 :
    build_context_from_expenses [] = "No expense data available."
    ∧ (∀ recs, recs ≠ [] →
        build_context_from_expenses recs =
          "Total spending: " ++ fmt2 ((recs.map (fun r => r.amount)).sum) ++ " PKR. "
          ++ "Average expense: "
            ++ fmt2 ((recs.map (fun r => r.amount)).sum / (recs.length : ℚ)) ++ " PKR. "
          ++ "Spending by category: "
          ++ String.intercalate ", "
              ((categoryKeys recs).map
                (fun c => c ++ ": " ++ fmt2 (categoryTotal recs c) ++ " PKR")))
    ∧ build_context_from_expenses exampleRecords =
        "Total spending: 175.00 PKR. Average expense: 58.33 PKR. Spending by category: Food: 150.00 PKR, Transport: 25.00 PKR" := by
  refine ⟨rfl, ?_, ?_⟩
  · intro recs h
    unfold build_context_from_expenses
    rw [if_neg h]
  · have hne : exampleRecords ≠ [] := by decide
    have hmap : exampleRecords.map (fun r => r.amount) = [100, 50, 25] := by decide
    have hsum : (exampleRecords.map (fun r => r.amount)).sum = (175 : ℚ) := by
      rw [hmap]
      norm_num
    have hlen : ((exampleRecords.length : ℕ) : ℚ) = ((3:ℕ) : ℚ) := by
      norm_num [exampleRecords]
    have hkeys : categoryKeys exampleRecords = ["Food", "Transport"] := by decide
    have hfilF : exampleRecords.filter (fun r => r.category == "Food") =
        [ { category := "Food", amount := 100 }, { category := "Food", amount := 50 } ] := by
      decide
    have hfilT : exampleRecords.filter (fun r => r.category == "Transport") =
        [ { category := "Transport", amount := 25 } ] := by
      decide
    have hfood : categoryTotal exampleRecords "Food" = (150 : ℚ) := by
      unfold categoryTotal
      rw [hfilF]
      norm_num
    have htrans : categoryTotal exampleRecords "Transport" = (25 : ℚ) := by
      unfold categoryTotal
      rw [hfilT]
      norm_num
    unfold build_context_from_expenses
    rw [if_neg hne, hsum, hlen, hkeys]
    simp only [List.map_cons, List.map_nil]
    rw [hfood, htrans, fmt2_175, fmt2_avg, fmt2_150, fmt2_25]
    decide

/-- C7 witness: the non-empty rendering equation applied at the example
record table. -/
theorem claim_C7_wit :
    build_context_from_expenses exampleRecords =
      "Total spending: " ++ fmt2 ((exampleRecords.map (fun r => r.amount)).sum) ++ " PKR. "
      ++ "Average expense: "
        ++ fmt2 ((exampleRecords.map (fun r => r.amount)).sum / (exampleRecords.length : ℚ))
        ++ " PKR. "
      ++ "Spending by category: "
      ++ String.intercalate ", "
          ((categoryKeys exampleRecords).map
            (fun c => c ++ ": " ++ fmt2 (categoryTotal exampleRecords c) ++ " PKR")) :=
  claim_C7.2.1 exampleRecords (by decide)
